import Mathlib

/-!
# QuestLog gamification core: a shallow embedding

This file embeds the domain logic of `src/app.py` (a Streamlit task tracker
with XP / level / streak gamification and a boss-battle metaphor) into Lean,
and proves the specified properties of that logic.

Conventions of the embedding:
* Python `date` objects become `PyDate` records; `date.toordinal` is embedded
  as `PyDate.toOrdinal` (the proleptic Gregorian day number used by CPython),
  so `(a - b).days` becomes `PyDate.sub a b : Int`.
* Python `time` objects become `PyTime` records (second resolution, which is
  what `time.isoformat()` emits when microseconds are zero).
* `pandas.DataFrame` rows become `List Task`; `df['Status'].sum()` becomes
  `List.countP`, filtering and column projection become `List.filter` and
  `List.map`, and `Series.unique` becomes `List.dedup`.
* Python's `sorted(..., reverse=True)` becomes an insertion sort by the
  lexicographic date order (on duplicate-free input any correct sort agrees).
* Python integers become `Int`.  Python `//` and `%` floor toward negative
  infinity; for the positive divisors used here this coincides with Lean's
  euclidean `/` and `%` on `Int`, which are therefore used directly.
* Python float division for the progress bar is embedded as exact division
  in `ℚ`.
* `st.session_state` becomes an explicit `AppState` record threaded through
  the repository-layer functions; reported success/failure of a load becomes
  a `Bool` alongside the new state.
-/

namespace QuestLog

/-! ## Configuration constants (`GameConfig`) -/

namespace GameConfig

def XP_PER_TASK : Int := 50

def BOSS_DMG_PER_TASK : Int := 10

def LEVEL_BASE_XP : Int := 500

def BOSS_BONUS_XP : Int := 500

end GameConfig

/-! ## Dates and times (Python `datetime.date` / `datetime.time`) -/

structure PyDate where
  year : Nat
  month : Nat
  day : Nat
  deriving DecidableEq

structure PyTime where
  hour : Nat
  minute : Nat
  second : Nat
  deriving DecidableEq

def isLeap (y : Nat) : Bool :=
  (y % 4 == 0 && y % 100 != 0) || y % 400 == 0

def daysInMonth (y m : Nat) : Nat :=
  if m = 2 then (if isLeap y then 29 else 28)
  else if m = 4 ∨ m = 6 ∨ m = 9 ∨ m = 11 then 30
  else 31

def daysBeforeMonth (y m : Nat) : Nat :=
  [0, 31, 59, 90, 120, 151, 181, 212, 243, 273, 304, 334].getD (m - 1) 0 +
    (if 2 < m ∧ isLeap y = true then 1 else 0)

/-- Python's `date.toordinal`: day number in the proleptic Gregorian calendar,
with day 1 = January 1 of year 1. -/
def PyDate.toOrdinal (d : PyDate) : Nat :=
  365 * (d.year - 1) + (d.year - 1) / 4 - (d.year - 1) / 100 + (d.year - 1) / 400 +
    daysBeforeMonth d.year d.month + d.day

/-- Python date subtraction: `(a - b).days`. -/
def PyDate.sub (a b : PyDate) : Int :=
  (a.toOrdinal : Int) - (b.toOrdinal : Int)

/-- Python's total order on `date` values (lexicographic on year, month, day). -/
def PyDate.leb (a b : PyDate) : Bool :=
  if a.year ≠ b.year then decide (a.year < b.year)
  else if a.month ≠ b.month then decide (a.month < b.month)
  else decide (a.day ≤ b.day)

def insertDescBy (le : α → α → Bool) (a : α) : List α → List α
  | [] => [a]
  | b :: bs => if le b a then a :: b :: bs else b :: insertDescBy le a bs

def sortDescBy (le : α → α → Bool) : List α → List α
  | [] => []
  | a :: as => insertDescBy le a (sortDescBy le as)

/-- `sorted(dates, reverse=True)` on Python date values. -/
def sortDatesDesc (l : List PyDate) : List PyDate :=
  sortDescBy PyDate.leb l

/-! ## Domain model -/

/-- One row of the task DataFrame (columns as in `GameConfig.DEFAULT_TASK`). -/
structure Task where
  Title : String
  Description : String
  Date : PyDate
  Start : PyTime
  End : PyTime
  Status : Bool
  Color : String
  deriving DecidableEq

structure Boss where
  Name : String
  MaxHP : Int
  CurrentHP : Int
  Image : String
  deriving DecidableEq

/-- The dict returned by `GamificationService.calculate_stats`. -/
structure Stats where
  xp : Int
  level : Int
  progress : ℚ
  deriving DecidableEq

/-! ## `GamificationService` -/

/-- `GamificationService.calculate_stats(df, boss_xp)`. -/
def calculate_stats (df : List Task) (boss_xp : Int) : Stats :=
  let completed_count : Int := if df.isEmpty then 0 else (df.countP (fun t => t.Status) : Int)
  let current_xp := completed_count * GameConfig.XP_PER_TASK + boss_xp
  { xp := current_xp
    level := current_xp / GameConfig.LEVEL_BASE_XP + 1
    progress := ((current_xp % GameConfig.LEVEL_BASE_XP : Int) : ℚ) / (GameConfig.LEVEL_BASE_XP : ℚ) }

/-- The `for i in range(1, len(dates))` walk inside `calculate_streak`;
`current_date` is the cursor, `streak` the accumulator. -/
def streakWalk (current_date : PyDate) (dates : List PyDate) (streak : Nat) : Nat :=
  match dates with
  | [] => streak
  | d :: ds => if PyDate.sub current_date d = 1 then streakWalk d ds (streak + 1) else streak

/-- The distinct completion dates of `df`, sorted descending
(`sorted(completed['Date'].unique(), reverse=True)`). -/
def completedDatesSorted (df : List Task) : List PyDate :=
  sortDatesDesc ((df.filter (fun t => t.Status)).map (fun t => t.Date)).dedup

/-- `GamificationService.calculate_streak(df)`; `today` stands for the
ambient `date.today()`. -/
def calculate_streak (today : PyDate) (df : List Task) : Nat :=
  if df.isEmpty then 0
  else
    let completed := df.filter (fun t => t.Status)
    if completed.isEmpty then 0
    else
      let dates := sortDatesDesc (completed.map (fun t => t.Date)).dedup
      match dates with
      | [] => 0
      | d0 :: rest =>
        if 1 < PyDate.sub today d0 then 0
        else streakWalk d0 rest 1

/-! ## `BossManager` -/

/-- `BossManager.deal_damage(boss, hit_count)`. -/
def deal_damage (boss : Boss) (hit_count : Int) : Boss × Int :=
  let damage := hit_count * GameConfig.BOSS_DMG_PER_TASK
  ({ boss with CurrentHP := boss.CurrentHP - damage }, damage)

/-- The defeat-detection block at the end of `UI.render_boss_arena`, as a
state transition on the active boss and the accumulated bonus XP: when a boss
is active and its HP is `<= 0`, award `BOSS_BONUS_XP` and clear the boss;
otherwise leave both unchanged. -/
def boss_defeat_step (active_boss : Option Boss) (boss_xp : Int) : Option Boss × Int :=
  match active_boss with
  | none => (none, boss_xp)
  | some boss =>
    if boss.CurrentHP ≤ 0 then (none, boss_xp + GameConfig.BOSS_BONUS_XP)
    else (some boss, boss_xp)

/-! ## ISO-8601 serialization (`DateEncoder` / `date.fromisoformat` /
`time.fromisoformat`) -/

def digitChar (n : Nat) : Char := Char.ofNat (48 + n)

/-- Read one decimal digit back, failing on non-digit characters. -/
def digit? (c : Char) : Option Nat :=
  if c.isDigit then some (c.toNat - 48) else none

def pad2 (n : Nat) : List Char := [digitChar (n / 10), digitChar (n % 10)]

def pad4 (n : Nat) : List Char :=
  [digitChar (n / 1000), digitChar (n / 100 % 10), digitChar (n / 10 % 10), digitChar (n % 10)]

/-- `date.isoformat()`: `YYYY-MM-DD`. -/
def PyDate.isoformat (d : PyDate) : String :=
  ⟨pad4 d.year ++ '-' :: pad2 d.month ++ '-' :: pad2 d.day⟩

/-- `time.isoformat()` with zero microseconds: `HH:MM:SS`. -/
def PyTime.isoformat (t : PyTime) : String :=
  ⟨pad2 t.hour ++ ':' :: pad2 t.minute ++ ':' :: pad2 t.second⟩

/-- The values `datetime.date` accepts as a calendar date. -/
def PyDate.Valid (d : PyDate) : Prop :=
  1 ≤ d.year ∧ d.year ≤ 9999 ∧ 1 ≤ d.month ∧ d.month ≤ 12 ∧
    1 ≤ d.day ∧ d.day ≤ daysInMonth d.year d.month

instance (d : PyDate) : Decidable d.Valid :=
  inferInstanceAs (Decidable (_ ∧ _ ∧ _ ∧ _ ∧ _ ∧ _))

/-- The values `datetime.time` accepts (at second resolution). -/
def PyTime.Valid (t : PyTime) : Prop :=
  t.hour ≤ 23 ∧ t.minute ≤ 59 ∧ t.second ≤ 59

instance (t : PyTime) : Decidable t.Valid :=
  inferInstanceAs (Decidable (_ ∧ _ ∧ _))

/-- `date.fromisoformat`: accepts exactly `YYYY-MM-DD` naming a valid
calendar date, and raises (`none`) on anything else. -/
def date_fromisoformat (s : String) : Option PyDate :=
  match s.data with
  | [y1, y2, y3, y4, c1, m1, m2, c2, d1, d2] =>
    if c1 = '-' ∧ c2 = '-' then
      match digit? y1, digit? y2, digit? y3, digit? y4,
            digit? m1, digit? m2, digit? d1, digit? d2 with
      | some a, some b, some c, some d, some e, some f, some g, some k =>
        let dt : PyDate := ⟨1000 * a + 100 * b + 10 * c + d, 10 * e + f, 10 * g + k⟩
        if dt.Valid then some dt else none
      | _, _, _, _, _, _, _, _ => none
    else none
  | _ => none

/-- `time.fromisoformat` on the strings `time.isoformat` emits:
accepts exactly `HH:MM:SS` naming a valid time, `none` on anything else. -/
def time_fromisoformat (s : String) : Option PyTime :=
  match s.data with
  | [h1, h2, c1, m1, m2, c2, s1, s2] =>
    if c1 = ':' ∧ c2 = ':' then
      match digit? h1, digit? h2, digit? m1, digit? m2, digit? s1, digit? s2 with
      | some a, some b, some e, some f, some g, some k =>
        let t : PyTime := ⟨10 * a + b, 10 * e + f, 10 * g + k⟩
        if t.Valid then some t else none
      | _, _, _, _, _, _ => none
    else none
  | _ => none

/-! ## Persistence (`StateRepository`) -/

/-- A task record as it appears in the save file: date and times are
ISO-8601 strings (the output of `DateEncoder`). -/
structure RawTask where
  Title : String
  Description : String
  Date : String
  Start : String
  End : String
  Status : Bool
  Color : String
  deriving DecidableEq

/-- The persisted JSON object.  A missing key is `none`; `active_boss` may
also be present and null (`some none`). -/
structure SaveData where
  tasks : Option (List RawTask)
  boss_xp : Option Int
  active_boss : Option (Option Boss)
  deriving DecidableEq

/-- The `st.session_state` fields owned by the core. -/
structure AppState where
  tasks : List Task
  boss_xp : Int
  active_boss : Option Boss
  deriving DecidableEq

/-- One row of `tasks.to_dict(orient="records")` after `DateEncoder`. -/
def Task.toRaw (t : Task) : RawTask :=
  { Title := t.Title, Description := t.Description, Date := t.Date.isoformat,
    Start := t.Start.isoformat, End := t.End.isoformat,
    Status := t.Status, Color := t.Color }

/-- `StateRepository.export_data()` as a map to the persisted JSON object. -/
def export_data (s : AppState) : SaveData :=
  { tasks := some (s.tasks.map Task.toRaw),
    boss_xp := some s.boss_xp,
    active_boss := some s.active_boss }

/-- Parsing one loaded task row back (`date.fromisoformat` /
`time.fromisoformat` on the three string columns). -/
def RawTask.parse (r : RawTask) : Option Task :=
  match date_fromisoformat r.Date, time_fromisoformat r.Start, time_fromisoformat r.End with
  | some d, some st, some en =>
    some { Title := r.Title, Description := r.Description, Date := d,
           Start := st, End := en, Status := r.Status, Color := r.Color }
  | _, _, _ => none

/-- Column-wise parsing of the loaded rows: any unparseable date or time
string raises, failing the whole load. -/
def parseTasks : List RawTask → Option (List Task)
  | [] => some []
  | r :: rs =>
    match r.parse, parseTasks rs with
    | some t, some ts => some (t :: ts)
    | _, _ => none

/-- `StateRepository.load_data(json_data)` as a state transition; the `Bool`
reports success (`st.success`) versus a caught exception (`st.error`).
Mirroring the source's statement order, `boss_xp` and `active_boss` are
assigned before the task rows are parsed, so they survive into the failure
branch, while `tasks` is only assigned after all rows parse. -/
def load_data (s : AppState) (json_data : SaveData) : AppState × Bool :=
  let s1 : AppState :=
    { s with boss_xp := json_data.boss_xp.getD 0,
             active_boss := json_data.active_boss.getD none }
  let tasks := json_data.tasks.getD []
  if tasks.isEmpty then ({ s1 with tasks := [] }, true)
  else
    match parseTasks tasks with
    | some ts => ({ s1 with tasks := ts }, true)
    | none => (s1, false)

/-- Validity of an in-memory task: its date and times are values Python's
`date` / `time` constructors accept (which the UI layer guarantees). -/
def Task.Valid (t : Task) : Prop :=
  t.Date.Valid ∧ t.Start.Valid ∧ t.End.Valid

instance (t : Task) : Decidable t.Valid :=
  inferInstanceAs (Decidable (_ ∧ _ ∧ _))

/-! ## Specification-side definition for the streak walk (used to compare the
source's loop with the spec's description of it) -/

/-- Stated from the spec's words: the length of the maximal prefix of the
remaining sorted dates (`rest`) on which each consecutive pair of
`d0 :: rest` differs by exactly one day. -/
def specChainPrefixLen (d0 : PyDate) (rest : List PyDate) : Nat :=
  (((d0 :: rest).zip rest).takeWhile (fun p => PyDate.sub p.1 p.2 == 1)).length

/-! ## Helper lemmas -/

theorem digit?_digitChar (n : Nat) (h : n ≤ 9) : digit? (digitChar n) = some n := by
  interval_cases n <;> decide

theorem daysInMonth_le (y m : Nat) : daysInMonth y m ≤ 31 := by
  unfold daysInMonth
  split
  · split <;> omega
  · split <;> omega

theorem date_fromisoformat_isoformat (d : PyDate) (h : d.Valid) :
    date_fromisoformat d.isoformat = some d := by
  obtain ⟨y, m, dd⟩ := d
  simp only [PyDate.Valid] at h
  obtain ⟨h1, h2, h3, h4, h5, h6⟩ := h
  have hdm : daysInMonth y m ≤ 31 := daysInMonth_le y m
  have e1 : digit? (digitChar (y / 1000)) = some (y / 1000) := digit?_digitChar _ (by omega)
  have e2 : digit? (digitChar (y / 100 % 10)) = some (y / 100 % 10) := digit?_digitChar _ (by omega)
  have e3 : digit? (digitChar (y / 10 % 10)) = some (y / 10 % 10) := digit?_digitChar _ (by omega)
  have e4 : digit? (digitChar (y % 10)) = some (y % 10) := digit?_digitChar _ (by omega)
  have e5 : digit? (digitChar (m / 10)) = some (m / 10) := digit?_digitChar _ (by omega)
  have e6 : digit? (digitChar (m % 10)) = some (m % 10) := digit?_digitChar _ (by omega)
  have e7 : digit? (digitChar (dd / 10)) = some (dd / 10) := digit?_digitChar _ (by omega)
  have e8 : digit? (digitChar (dd % 10)) = some (dd % 10) := digit?_digitChar _ (by omega)
  have hrec : (⟨1000 * (y / 1000) + 100 * (y / 100 % 10) + 10 * (y / 10 % 10) + y % 10,
      10 * (m / 10) + m % 10, 10 * (dd / 10) + dd % 10⟩ : PyDate) = ⟨y, m, dd⟩ := by
    rw [PyDate.mk.injEq]
    refine ⟨by omega, by omega, by omega⟩
  simp only [PyDate.isoformat, pad4, pad2, List.cons_append, List.nil_append,
    date_fromisoformat, e1, e2, e3, e4, e5, e6, e7, e8]
  rw [if_pos ⟨trivial, trivial⟩]
  simp only [hrec]
  rw [if_pos ⟨h1, h2, h3, h4, h5, h6⟩]

theorem time_fromisoformat_isoformat (t : PyTime) (h : t.Valid) :
    time_fromisoformat t.isoformat = some t := by
  obtain ⟨hh, mm, ss⟩ := t
  simp only [PyTime.Valid] at h
  obtain ⟨h1, h2, h3⟩ := h
  have e1 : digit? (digitChar (hh / 10)) = some (hh / 10) := digit?_digitChar _ (by omega)
  have e2 : digit? (digitChar (hh % 10)) = some (hh % 10) := digit?_digitChar _ (by omega)
  have e3 : digit? (digitChar (mm / 10)) = some (mm / 10) := digit?_digitChar _ (by omega)
  have e4 : digit? (digitChar (mm % 10)) = some (mm % 10) := digit?_digitChar _ (by omega)
  have e5 : digit? (digitChar (ss / 10)) = some (ss / 10) := digit?_digitChar _ (by omega)
  have e6 : digit? (digitChar (ss % 10)) = some (ss % 10) := digit?_digitChar _ (by omega)
  have hrec : (⟨10 * (hh / 10) + hh % 10, 10 * (mm / 10) + mm % 10,
      10 * (ss / 10) + ss % 10⟩ : PyTime) = ⟨hh, mm, ss⟩ := by
    rw [PyTime.mk.injEq]
    refine ⟨by omega, by omega, by omega⟩
  simp only [PyTime.isoformat, pad2, List.cons_append, List.nil_append,
    time_fromisoformat, e1, e2, e3, e4, e5, e6]
  rw [if_pos ⟨trivial, trivial⟩]
  simp only [hrec]
  rw [if_pos ⟨h1, h2, h3⟩]

theorem RawTask.parse_toRaw (t : Task) (h : t.Valid) : t.toRaw.parse = some t := by
  obtain ⟨hd, hs, he⟩ := h
  simp only [Task.toRaw, RawTask.parse, date_fromisoformat_isoformat _ hd,
    time_fromisoformat_isoformat _ hs, time_fromisoformat_isoformat _ he]

theorem parseTasks_map_toRaw (l : List Task) (h : ∀ t ∈ l, t.Valid) :
    parseTasks (l.map Task.toRaw) = some l := by
  induction l with
  | nil => rfl
  | cons a as ih =>
    simp only [List.map_cons, parseTasks,
      RawTask.parse_toRaw a (h a (List.mem_cons_self a as)),
      ih (fun t ht => h t (List.mem_cons_of_mem a ht))]

theorem specChainPrefixLen_cons (cur d : PyDate) (ds : List PyDate) :
    specChainPrefixLen cur (d :: ds) =
      if PyDate.sub cur d = 1 then 1 + specChainPrefixLen d ds else 0 := by
  unfold specChainPrefixLen
  rw [List.zip_cons_cons]
  by_cases h : PyDate.sub cur d = 1
  · simp [List.takeWhile_cons, h]
    omega
  · simp [List.takeWhile_cons, h]

theorem streakWalk_eq_chain (rest : List PyDate) (cur : PyDate) (k : Nat) :
    streakWalk cur rest k = k + specChainPrefixLen cur rest := by
  induction rest generalizing cur k with
  | nil => simp [streakWalk, specChainPrefixLen]
  | cons d ds ih =>
    rw [specChainPrefixLen_cons]
    by_cases h : PyDate.sub cur d = 1
    · simp only [streakWalk]
      rw [if_pos h, if_pos h, ih]
      omega
    · simp only [streakWalk]
      rw [if_neg h, if_neg h]
      omega

theorem sortDescBy_ne_nil (le : α → α → Bool) (a : α) (l : List α) :
    sortDescBy le (a :: l) ≠ [] := by
  simp only [sortDescBy]
  cases hs : sortDescBy le l with
  | nil => simp [insertDescBy]
  | cons b bs =>
    simp only [insertDescBy]
    split <;> simp

theorem completedDatesSorted_nil {df : List Task}
    (h : completedDatesSorted df = []) : df.filter (fun t => t.Status) = [] := by
  unfold completedDatesSorted sortDatesDesc at h
  cases hd : ((df.filter (fun t => t.Status)).map (fun t => t.Date)).dedup with
  | nil =>
    have := (List.dedup_eq_nil _).mp hd
    exact List.map_eq_nil_iff.mp this
  | cons b bs =>
    rw [hd] at h
    exact absurd h (sortDescBy_ne_nil _ _ _)

theorem calculate_streak_eq (today : PyDate) (df : List Task) :
    calculate_streak today df =
      match completedDatesSorted df with
      | [] => 0
      | d0 :: rest => if 1 < PyDate.sub today d0 then 0 else streakWalk d0 rest 1 := by
  unfold calculate_streak completedDatesSorted
  by_cases hdf : df = []
  · subst hdf
    simp [sortDatesDesc, sortDescBy]
  · rw [if_neg (by simp [List.isEmpty_iff, hdf])]
    by_cases hc : df.filter (fun t => t.Status) = []
    · rw [if_pos (by simp [List.isEmpty_iff, hc])]
      rw [hc]
      simp [sortDatesDesc, sortDescBy]
    · rw [if_neg (by simp [List.isEmpty_iff, hc])]

/-! ## Claims -/

/-- C1: for every task set and every `bonusXP >= 0`, `calculate_stats`
returns `xp = completedCount * 50 + bonusXP`, `level = floor(xp / 500) + 1`
(witnessed by `level = xp / 500 + 1` together with the floor bracketing
`500 * (level - 1) ≤ xp < 500 * level`), and
`progress = (xp mod 500) / 500`, a value in `[0, 1)`; on the empty task set
the completed count is `0`. -/
theorem calculate_stats_correct (df : List Task) (boss_xp : Int) (_hb : 0 ≤ boss_xp) :
    (calculate_stats df boss_xp).xp = (df.countP (fun t => t.Status) : Int) * 50 + boss_xp ∧
    (calculate_stats df boss_xp).level = (calculate_stats df boss_xp).xp / 500 + 1 ∧
    500 * ((calculate_stats df boss_xp).level - 1) ≤ (calculate_stats df boss_xp).xp ∧
    (calculate_stats df boss_xp).xp < 500 * (calculate_stats df boss_xp).level ∧
    (calculate_stats df boss_xp).progress =
      ((((calculate_stats df boss_xp).xp % 500 : Int) : ℚ) / 500) ∧
    0 ≤ (calculate_stats df boss_xp).progress ∧
    (calculate_stats df boss_xp).progress < 1 ∧
    (([] : List Task).countP (fun t => t.Status) = 0 ∧
      (calculate_stats [] boss_xp).xp = boss_xp) := by
  have hxp : (calculate_stats df boss_xp).xp =
      (df.countP (fun t => t.Status) : Int) * 50 + boss_xp := by
    by_cases hdf : df = []
    · subst hdf
      simp [calculate_stats, GameConfig.XP_PER_TASK]
    · simp [calculate_stats, GameConfig.XP_PER_TASK, List.isEmpty_iff, hdf]
  have hlevel : (calculate_stats df boss_xp).level =
      (calculate_stats df boss_xp).xp / 500 + 1 := by
    simp [calculate_stats, GameConfig.LEVEL_BASE_XP]
  have hprog : (calculate_stats df boss_xp).progress =
      ((((calculate_stats df boss_xp).xp % 500 : Int) : ℚ) / 500) := by
    simp [calculate_stats, GameConfig.LEVEL_BASE_XP]
  have hm0 : (0 : Int) ≤ (calculate_stats df boss_xp).xp % 500 := by omega
  have hm1 : (calculate_stats df boss_xp).xp % 500 < 500 := by omega
  refine ⟨hxp, hlevel, by omega, by omega, hprog, ?_, ?_, by simp, ?_⟩
  · rw [hprog]
    positivity
  · rw [hprog, div_lt_one (by norm_num)]
    exact_mod_cast hm1
  · simp [calculate_stats, GameConfig.XP_PER_TASK]

/-- C1 witness. -/
theorem calculate_stats_correct_witness :
    (calculate_stats
      [{ Title := "Install Streamlit", Description := "pip install streamlit",
         Date := ⟨2025, 10, 12⟩, Start := ⟨9, 0, 0⟩, End := ⟨10, 0, 0⟩,
         Status := true, Color := "#33B679" }] 500).xp =
      (([{ Title := "Install Streamlit", Description := "pip install streamlit",
           Date := ⟨2025, 10, 12⟩, Start := ⟨9, 0, 0⟩, End := ⟨10, 0, 0⟩,
           Status := true, Color := "#33B679" }] : List Task).countP
        (fun t => t.Status) : Int) * 50 + 500 :=
  (calculate_stats_correct _ 500 (by decide)).1

/-- C8: for every task set and every `bonusXP >= 0`, the level returned by
`calculate_stats` is at least 1, including at `xp = 0`. -/
theorem calculate_stats_level_ge_one (df : List Task) (boss_xp : Int) (hb : 0 ≤ boss_xp) :
    1 ≤ (calculate_stats df boss_xp).level := by
  have hcount : (0 : Int) ≤ (df.countP (fun t => t.Status) : Int) := Int.natCast_nonneg _
  by_cases hdf : df = []
  · subst hdf
    simp only [calculate_stats, GameConfig.XP_PER_TASK, GameConfig.LEVEL_BASE_XP,
      List.isEmpty_nil, if_true]
    omega
  · simp only [calculate_stats, GameConfig.XP_PER_TASK, GameConfig.LEVEL_BASE_XP,
      List.isEmpty_iff, hdf, if_false]
    omega

/-- C8 witness (the `xp = 0` case: empty task set, zero bonus XP). -/
theorem calculate_stats_level_ge_one_witness :
    1 ≤ (calculate_stats [] 0).level :=
  calculate_stats_level_ge_one [] 0 (by decide)

/-- C3: `deal_damage` returns `damageDealt = hitCount * 10` and a boss whose
`CurrentHP` is the input `CurrentHP` minus the damage, unclamped;
`hitCount = 0` is a no-op, and a boss at 100 HP hit twice takes 20 damage
down to 80 HP. -/
theorem deal_damage_correct (boss : Boss) (hit_count : Int) :
    (deal_damage boss hit_count).2 = hit_count * 10 ∧
    (deal_damage boss hit_count).1.CurrentHP = boss.CurrentHP - hit_count * 10 ∧
    (deal_damage boss 0).1 = boss ∧ (deal_damage boss 0).2 = 0 ∧
    (boss.CurrentHP = 100 →
      (deal_damage boss 2).2 = 20 ∧ (deal_damage boss 2).1.CurrentHP = 80) := by
  refine ⟨rfl, rfl, ?_, rfl, ?_⟩
  · cases boss
    simp [deal_damage]
  · intro h
    simp [deal_damage, GameConfig.BOSS_DMG_PER_TASK, h]

/-- C3 witness (the spec's example boss at 100 HP hit twice). -/
theorem deal_damage_correct_witness :
    (deal_damage ⟨"Entropy Dragon", 100, 100, "🐉"⟩ 2).2 = 20 ∧
    (deal_damage ⟨"Entropy Dragon", 100, 100, "🐉"⟩ 2).1.CurrentHP = 80 :=
  (deal_damage_correct ⟨"Entropy Dragon", 100, 100, "🐉"⟩ 2).2.2.2.2 rfl

/-- C10: `deal_damage` changes only `CurrentHP`: the `Name`, `MaxHP` and
`Image` of the returned boss equal those of the input boss. -/
theorem deal_damage_frame (boss : Boss) (hit_count : Int) :
    (deal_damage boss hit_count).1.Name = boss.Name ∧
    (deal_damage boss hit_count).1.MaxHP = boss.MaxHP ∧
    (deal_damage boss hit_count).1.Image = boss.Image :=
  ⟨rfl, rfl, rfl⟩

/-- C4: in the defeat-detection step after damage, a boss at `CurrentHP <= 0`
is cleared to `none` and exactly `BOSS_BONUS_XP = 500` is added to the
accumulated bonus XP; a boss at `CurrentHP > 0` leaves both the boss and the
bonus XP unchanged. -/
theorem boss_defeat_step_correct (b : Boss) (boss_xp : Int) :
    (b.CurrentHP ≤ 0 → boss_defeat_step (some b) boss_xp = (none, boss_xp + 500)) ∧
    (0 < b.CurrentHP → boss_defeat_step (some b) boss_xp = (some b, boss_xp)) := by
  constructor
  · intro h
    simp [boss_defeat_step, GameConfig.BOSS_BONUS_XP, h]
  · intro h
    simp [boss_defeat_step, GameConfig.BOSS_BONUS_XP, not_le.mpr h]

/-- C4 witness: a boss driven to `-5` HP is discarded and 500 XP awarded;
a boss at `3` HP survives with XP unchanged. -/
theorem boss_defeat_step_correct_witness :
    boss_defeat_step (some ⟨"Entropy Dragon", 100, -5, "🐉"⟩) 7 = (none, 7 + 500) ∧
    boss_defeat_step (some ⟨"Entropy Dragon", 100, 3, "🐉"⟩) 7 =
      (some ⟨"Entropy Dragon", 100, 3, "🐉"⟩, 7) :=
  ⟨(boss_defeat_step_correct ⟨"Entropy Dragon", 100, -5, "🐉"⟩ 7).1 (by decide),
   (boss_defeat_step_correct ⟨"Entropy Dragon", 100, 3, "🐉"⟩ 7).2 (by decide)⟩

/-- C2: whenever the distinct completed-task dates sorted descending start at
today or yesterday, `calculate_streak` returns 1 plus the length of the
maximal prefix of the remaining sorted dates on which each consecutive pair
differs by exactly one day (`specChainPrefixLen`); the walk stops at the
first gap and never resumes. -/
theorem calculate_streak_walk_correct (today : PyDate) (df : List Task)
    (d0 : PyDate) (rest : List PyDate)
    (hs : completedDatesSorted df = d0 :: rest)
    (h0 : PyDate.sub today d0 = 0 ∨ PyDate.sub today d0 = 1) :
    calculate_streak today df = 1 + specChainPrefixLen d0 rest := by
  rw [calculate_streak_eq, hs]
  simp only
  rw [if_neg (by omega), streakWalk_eq_chain]

/-- C2 witness: completions three days back (2025-10-09, listed first) and
today (2025-10-12) — sorting puts today first, the gap stops the walk, so
the chain prefix is empty and the streak is 1, not 2. -/
theorem calculate_streak_walk_correct_witness :
    calculate_streak ⟨2025, 10, 12⟩
        [{ Title := "b", Description := "", Date := ⟨2025, 10, 9⟩,
           Start := ⟨9, 0, 0⟩, End := ⟨10, 0, 0⟩, Status := true, Color := "#3788d8" },
         { Title := "a", Description := "", Date := ⟨2025, 10, 12⟩,
           Start := ⟨9, 0, 0⟩, End := ⟨10, 0, 0⟩, Status := true, Color := "#3788d8" }] =
      1 + specChainPrefixLen ⟨2025, 10, 12⟩ [⟨2025, 10, 9⟩] ∧
    specChainPrefixLen ⟨2025, 10, 12⟩ [⟨2025, 10, 9⟩] = 0 :=
  ⟨calculate_streak_walk_correct ⟨2025, 10, 12⟩ _ ⟨2025, 10, 12⟩ [⟨2025, 10, 9⟩]
      (by decide) (by decide),
   by decide⟩

/-- C6: `calculate_streak` returns 0 exactly when the task set is empty, no
task is completed, or the most recent distinct completion date (the head of
the descending-sorted date list) is more than one day before today; a head
at most one day before today gives a streak of at least 1; in particular a
single completed task dated today or yesterday gives streak 1, and a single
completed task two or more days old gives streak 0. -/
theorem calculate_streak_zero_iff (today : PyDate) (df : List Task) :
    (calculate_streak today df = 0 ↔
      df = [] ∨ df.filter (fun t => t.Status) = [] ∨
        ∃ d0 rest, completedDatesSorted df = d0 :: rest ∧ 1 < PyDate.sub today d0) ∧
    (∀ d0 rest, completedDatesSorted df = d0 :: rest →
      PyDate.sub today d0 ≤ 1 → 1 ≤ calculate_streak today df) ∧
    (∀ t : Task, t.Status = true →
      (PyDate.sub today t.Date = 0 ∨ PyDate.sub today t.Date = 1) →
      calculate_streak today [t] = 1) ∧
    (∀ t : Task, t.Status = true → 2 ≤ PyDate.sub today t.Date →
      calculate_streak today [t] = 0) := by
  have hsingle : ∀ t : Task, t.Status = true → completedDatesSorted [t] = [t.Date] := by
    intro t ht
    simp [completedDatesSorted, List.filter, ht, sortDatesDesc, sortDescBy, insertDescBy]
  refine ⟨⟨?_, ?_⟩, ?_, ?_, ?_⟩
  · intro h
    rw [calculate_streak_eq] at h
    cases hs : completedDatesSorted df with
    | nil => exact Or.inr (Or.inl (completedDatesSorted_nil hs))
    | cons d0 rest =>
      rw [hs] at h
      simp only at h
      by_cases hgt : 1 < PyDate.sub today d0
      · exact Or.inr (Or.inr ⟨d0, rest, rfl, hgt⟩)
      · rw [if_neg hgt, streakWalk_eq_chain] at h
        omega
  · intro h
    rw [calculate_streak_eq]
    rcases h with h | h | ⟨d0, rest, hs, hgt⟩
    · subst h
      rfl
    · have : completedDatesSorted df = [] := by
        simp [completedDatesSorted, h, sortDatesDesc, sortDescBy]
      rw [this]
    · rw [hs]
      simp only
      rw [if_pos hgt]
  · intro d0 rest hs hle
    rw [calculate_streak_eq, hs]
    simp only
    rw [if_neg (by omega), streakWalk_eq_chain]
    omega
  · intro t ht h0
    rw [calculate_streak_eq, hsingle t ht]
    simp only
    rw [if_neg (by omega)]
    rfl
  · intro t ht h2
    rw [calculate_streak_eq, hsingle t ht]
    simp only
    rw [if_pos (by omega)]

/-- C6 witness: a single task completed yesterday (2025-10-11, seen from
2025-10-12) yields streak 1. -/
theorem calculate_streak_zero_iff_witness :
    calculate_streak ⟨2025, 10, 12⟩
        [{ Title := "a", Description := "", Date := ⟨2025, 10, 11⟩,
           Start := ⟨9, 0, 0⟩, End := ⟨10, 0, 0⟩, Status := true, Color := "#3788d8" }] = 1 :=
  (calculate_streak_zero_iff ⟨2025, 10, 12⟩
      [{ Title := "a", Description := "", Date := ⟨2025, 10, 11⟩,
         Start := ⟨9, 0, 0⟩, End := ⟨10, 0, 0⟩, Status := true, Color := "#3788d8" }]).2.2.1
    { Title := "a", Description := "", Date := ⟨2025, 10, 11⟩,
      Start := ⟨9, 0, 0⟩, End := ⟨10, 0, 0⟩, Status := true, Color := "#3788d8" }
    rfl (by decide)

/-- C9: when the most recent distinct completion date is strictly after
today, the anchor check `(today - mostRecent).days > 1` is false, so
`calculate_streak` still returns at least 1 even though nothing was
completed today or yesterday. -/
theorem calculate_streak_future_anchor (today : PyDate) (df : List Task)
    (d0 : PyDate) (rest : List PyDate)
    (hs : completedDatesSorted df = d0 :: rest)
    (hfut : (today.toOrdinal : Int) < (d0.toOrdinal : Int)) :
    ¬ 1 < PyDate.sub today d0 ∧ 1 ≤ calculate_streak today df := by
  have hneg : ¬ 1 < PyDate.sub today d0 := by
    unfold PyDate.sub
    omega
  refine ⟨hneg, ?_⟩
  rw [calculate_streak_eq, hs]
  simp only
  rw [if_neg hneg, streakWalk_eq_chain]
  omega

/-- C9 witness: seen from 2025-10-12, a task completed on the future date
2025-11-01 still yields a streak of at least 1. -/
theorem calculate_streak_future_anchor_witness :
    1 ≤ calculate_streak ⟨2025, 10, 12⟩
        [{ Title := "a", Description := "", Date := ⟨2025, 11, 1⟩,
           Start := ⟨9, 0, 0⟩, End := ⟨10, 0, 0⟩, Status := true, Color := "#3788d8" }] :=
  (calculate_streak_future_anchor ⟨2025, 10, 12⟩ _ ⟨2025, 11, 1⟩ []
    (by decide) (by decide)).2

/-- C5: the claim that a failed load leaves the *entire* prior state intact
is violated by the source: `load_data` assigns `boss_xp` and `active_boss`
before parsing the date strings, so a save file with an unparseable task
date reports a failure and leaves the prior task collection unchanged, but
overwrites the prior `boss_xp` and `active_boss`.  Concretely, from a prior
state with `boss_xp = 7` and an active boss, loading a file whose only task
has `Date = "bad"` fails yet zeroes `boss_xp` and clears the boss. -/
theorem load_data_commits_boss_fields_on_bad_date :
    load_data
        ⟨[{ Title := "Install Streamlit", Description := "pip install streamlit",
            Date := ⟨2025, 10, 12⟩, Start := ⟨9, 0, 0⟩, End := ⟨10, 0, 0⟩,
            Status := true, Color := "#33B679" }],
         7, some ⟨"Entropy Dragon", 100, 40, "🐉"⟩⟩
        { tasks := some [{ Title := "T", Description := "", Date := "bad",
                           Start := "09:00:00", End := "10:00:00",
                           Status := true, Color := "#3788d8" }],
          boss_xp := some 0, active_boss := some none } =
      (⟨[{ Title := "Install Streamlit", Description := "pip install streamlit",
           Date := ⟨2025, 10, 12⟩, Start := ⟨9, 0, 0⟩, End := ⟨10, 0, 0⟩,
           Status := true, Color := "#33B679" }],
        0, none⟩, false) ∧
    (⟨[{ Title := "Install Streamlit", Description := "pip install streamlit",
         Date := ⟨2025, 10, 12⟩, Start := ⟨9, 0, 0⟩, End := ⟨10, 0, 0⟩,
         Status := true, Color := "#33B679" }],
      0, none⟩ : AppState) ≠
      ⟨[{ Title := "Install Streamlit", Description := "pip install streamlit",
          Date := ⟨2025, 10, 12⟩, Start := ⟨9, 0, 0⟩, End := ⟨10, 0, 0⟩,
          Status := true, Color := "#33B679" }],
        7, some ⟨"Entropy Dragon", 100, 40, "🐉"⟩⟩ := by
  refine ⟨by decide, by decide⟩

/-- C7: exporting an in-memory state (whose dates and times are values
Python's `date`/`time` constructors accept) to the persisted JSON format and
loading the result back reproduces the same task collection, the same
`boss_xp` and the same `active_boss`, regardless of the prior state the load
overwrites. -/
theorem export_data_load_data_roundtrip (prior s : AppState)
    (h : ∀ t ∈ s.tasks, t.Valid) :
    load_data prior (export_data s) = (s, true) := by
  obtain ⟨tasks, boss_xp, active_boss⟩ := s
  simp only [export_data, load_data, Option.getD_some]
  cases tasks with
  | nil => rfl
  | cons t ts =>
    have hparse := parseTasks_map_toRaw (t :: ts) h
    simp only [List.map_cons, List.isEmpty_cons, Bool.false_eq_true, if_false] at hparse ⊢
    rw [hparse]

/-- C7 witness: a one-task state with a boss and bonus XP survives the
save/load round trip. -/
theorem export_data_load_data_roundtrip_witness :
    load_data
        ⟨[], 0, none⟩
        (export_data
          ⟨[{ Title := "Install Streamlit", Description := "pip install streamlit",
              Date := ⟨2025, 10, 12⟩, Start := ⟨9, 0, 0⟩, End := ⟨10, 0, 0⟩,
              Status := true, Color := "#33B679" }],
            500, some ⟨"Entropy Dragon", 100, 40, "🐉"⟩⟩) =
      (⟨[{ Title := "Install Streamlit", Description := "pip install streamlit",
           Date := ⟨2025, 10, 12⟩, Start := ⟨9, 0, 0⟩, End := ⟨10, 0, 0⟩,
           Status := true, Color := "#33B679" }],
         500, some ⟨"Entropy Dragon", 100, 40, "🐉"⟩⟩, true) :=
  export_data_load_data_roundtrip ⟨[], 0, none⟩
    ⟨[{ Title := "Install Streamlit", Description := "pip install streamlit",
        Date := ⟨2025, 10, 12⟩, Start := ⟨9, 0, 0⟩, End := ⟨10, 0, 0⟩,
        Status := true, Color := "#33B679" }],
      500, some ⟨"Entropy Dragon", 100, 40, "🐉"⟩⟩ (by decide)

end QuestLog
